import Mathlib

/-!
Verification of the RustySpark memory library against its specification.

The development shallowly embeds the relevant Rust sources:

* src/mem/src/pointer_util.rs        — alignment helpers
* src/mem/src/freelist.rs            — intrusive free list
* src/mem/src/allocators/linear_allocator.rs
* src/mem/src/allocators/stack_allocator.rs
* src/mem/src/allocators/double_ended_stack_allocator.rs
* src/mem/src/allocators/pool_allocator.rs  — block-size computation
* src/mem/src/memory_realm/basic_realm.rs + bounds_checker/simple_bounds_checker.rs
* src/container/src/handlemap.rs
* src/container/src/vector.rs        — erase_range

Machine addresses and sizes are modelled as Nat; u32 header fields are stored
reduced mod 2^32 exactly where the source performs an `as u32` cast.  Byte
stores are modelled as functions from byte address to the value written there;
freshly committed pages read as zero, matching the OS zero-fill guarantee the
code relies on.

The file is organised as definitions first, then the lemmas and the theorems
about the claims.
-/

namespace RustySpark

/-- Modulus of the u32 casts performed when the allocators store header
fields. -/
def u32Mod : Nat := 4294967296

/-- Point update of a store (array/raw-memory write at one location). -/
def upd {α : Type} (f : Nat → α) (i : Nat) (v : α) : Nat → α :=
  fun j => if j = i then v else f j

/-! ### Pointer utilities — src/mem/src/pointer_util.rs -/

/-- Embedding of `pointer_util::is_pot`: zero is not a power of two, otherwise
the test is `num & (num - 1) == 0`. -/
def is_pot (num : Nat) : Bool :=
  match num with
  | 0 => false
  | n => Nat.land n (n - 1) == 0

/-- Embedding of `pointer_util::align_top`.  The source computes
`(addr + (alignment - 1)) & !(alignment - 1)` on `usize`; for a power-of-two
alignment (the function's own debug-asserted precondition) masking with the
complement clears the value down to the previous multiple of `alignment`,
written here as subtracting the remainder. -/
def align_top (addr alignment : Nat) : Nat :=
  (addr + (alignment - 1)) - ((addr + (alignment - 1)) % alignment)

/-- Embedding of `pointer_util::align_bottom`: `addr & !(alignment - 1)`,
i.e. clearing down to the previous multiple. -/
def align_bottom (addr alignment : Nat) : Nat :=
  addr - addr % alignment

/-! ### Linear allocator — src/mem/src/allocators/linear_allocator.rs -/

namespace LinearAllocator

/-- The linear allocator's `AllocationHeader` is a single u32
(`allocation_size`), so `ALLOCATION_META_SIZE = 4`. -/
def allocationMetaSize : Nat := 4

/-- Storage of the linear allocator: `mem_begin`, `mem_end`, `current_ptr`. -/
structure State where
  memBegin : Nat
  memEnd : Nat
  currentPtr : Nat

/-- Word store backing the allocator: maps a byte address to the u32 written
there.  Fresh committed memory reads zero. -/
abbrev WordStore := Nat → Nat

/-- Embedding of `LinearAllocator::alloc_raw`.  The cursor is first advanced by
`offset + ALLOCATION_META_SIZE` and aligned up; if the probe plus `size` passes
`mem_end` the function returns `None` with the cursor left at the probe (the
source performs the mutations on the storage before the overflow check and
never rolls them back).  On success the cursor steps back, the u32 header
(`size as u32`) is written there, the user pointer is the header address plus
the header size, and the cursor advances by `size + ALLOCATION_META_SIZE`. -/
def alloc_raw (st : State) (store : WordStore) (size alignment offset : Nat) :
    Option Nat × State × WordStore :=
  let offsetBeforeAlignment := offset + allocationMetaSize
  let probe := align_top (st.currentPtr + offsetBeforeAlignment) alignment
  if st.memEnd < probe + size then
    (none, { st with currentPtr := probe }, store)
  else
    let headerPtr := probe - offsetBeforeAlignment
    (some (headerPtr + allocationMetaSize),
     { st with currentPtr := headerPtr + (size + allocationMetaSize) },
     upd store headerPtr (size % u32Mod))

/-- Embedding of `LinearAllocator::get_allocation_size`: read the u32
immediately before the user pointer. -/
def get_allocation_size (store : WordStore) (ptr : Nat) : Nat :=
  store (ptr - allocationMetaSize)

/-- Embedding of `LinearAllocator::reset`. `dealloc_raw` is a no-op and is not
modelled. -/
def reset (st : State) : State :=
  { st with currentPtr := st.memBegin }

end LinearAllocator

/-! ### Stack allocator — src/mem/src/allocators/stack_allocator.rs -/

namespace StackAllocator

/-- The stack allocator's `AllocationHeader`: `allocation_offset` and
`allocation_size` are always present; `allocation_id` exists only under
`cfg(stack_alloc_lifo_check)`.  The model keeps all three fields and lets the
`lifoCheck` flag decide which ones the code touches. -/
structure Header where
  allocation_offset : Nat
  allocation_size : Nat
  allocation_id : Nat

/-- Size of the header struct: three u32 fields under the LIFO-check cfg,
two otherwise. -/
def metaSize (lifoCheck : Bool) : Nat := if lifoCheck then 12 else 8

/-- Storage of the stack allocator.  `allocationId` is the u32 allocation
counter present under `cfg(stack_alloc_lifo_check)`. -/
structure State where
  memBegin : Nat
  memEnd : Nat
  currentPtr : Nat
  allocationId : Nat

/-- Headers are written and read back through the same struct type, so the
store maps the header address to the whole header value. -/
abbrev HeaderStore := Nat → Header

/-- Embedding of `StackAllocator::alloc`.  Identical cursor arithmetic to the
linear allocator, but the header additionally records the pre-call cursor
offset from `mem_begin` (`current_ptr_offset as u32`) and, under the LIFO
check, the incremented allocation id. -/
def alloc (lifoCheck : Bool) (st : State) (store : HeaderStore)
    (size alignment offset : Nat) : Option Nat × State × HeaderStore :=
  let currentPtrOffset := st.currentPtr - st.memBegin
  let offsetBeforeAlignment := offset + metaSize lifoCheck
  let probe := align_top (st.currentPtr + offsetBeforeAlignment) alignment
  if st.memEnd < probe + size then
    (none, { st with currentPtr := probe }, store)
  else
    let headerPtr := probe - offsetBeforeAlignment
    let newId := if lifoCheck then (st.allocationId + 1) % u32Mod else st.allocationId
    (some (headerPtr + metaSize lifoCheck),
     { st with currentPtr := headerPtr + (size + metaSize lifoCheck), allocationId := newId },
     upd store headerPtr
       { allocation_offset := currentPtrOffset % u32Mod
         allocation_size := size % u32Mod
         allocation_id := if lifoCheck then (st.allocationId + 1) % u32Mod else 0 })

/-- Embedding of `StackAllocator::dealloc`: read the header in front of the
pointer, under the LIFO check debug-assert `allocation_id == storage id`
(returned as the Bool) and decrement the u32 counter, then rewind the cursor
to `mem_begin + allocation_offset`.  The store is not written. -/
def dealloc (lifoCheck : Bool) (st : State) (store : HeaderStore) (ptr : Nat) :
    State × Bool :=
  let header := store (ptr - metaSize lifoCheck)
  let lifoOk := !lifoCheck || (header.allocation_id == st.allocationId)
  let newId := if lifoCheck then (st.allocationId + (u32Mod - 1)) % u32Mod else st.allocationId
  ({ st with currentPtr := st.memBegin + header.allocation_offset, allocationId := newId },
   lifoOk)

/-- Embedding of `StackAllocator::get_allocation_size`. -/
def get_allocation_size (lifoCheck : Bool) (store : HeaderStore) (ptr : Nat) : Nat :=
  (store (ptr - metaSize lifoCheck)).allocation_size

end StackAllocator

/-! ### Double-ended stack allocator —
src/mem/src/allocators/double_ended_stack_allocator.rs

Modelled with `cfg(stack_alloc_lifo_check)` disabled, which is the build the
crate actually compiles (under the cfg, `alloc_raw` refers to a non-existent
`allocation_id` storage field).  So the header is two u32 fields and
`ALLOCATION_META_SIZE = 8`. -/

namespace DoubleEndedStackAllocator

structure Header where
  allocation_offset : Nat
  allocation_size : Nat

def allocationMetaSize : Nat := 8

/-- Storage: `mem_begin`, `mem_end`, `current_front_ptr`, `current_end_ptr`. -/
structure State where
  memBegin : Nat
  memEnd : Nat
  currentFrontPtr : Nat
  currentEndPtr : Nat

abbrev HeaderStore := Nat → Header

/-- Embedding of `DoubleEndedStackAllocator::alloc_raw` (front side).  Same
cursor arithmetic as the stack allocator except that the overflow check
compares `probe + (size - offset)` against `current_end_ptr`.  The `size -
offset` is a usize subtraction in the source; Nat truncated subtraction agrees
with it whenever `offset ≤ size` (for `offset > size` debug builds panic and no
pointer is returned, so the model can only return more often than the code). -/
def alloc_raw (st : State) (store : HeaderStore) (size alignment offset : Nat) :
    Option Nat × State × HeaderStore :=
  let currentPtrOffset := st.currentFrontPtr - st.memBegin
  let offsetBeforeAlignment := offset + allocationMetaSize
  let probe := align_top (st.currentFrontPtr + offsetBeforeAlignment) alignment
  if st.currentEndPtr < probe + (size - offset) then
    (none, { st with currentFrontPtr := probe }, store)
  else
    let headerPtr := probe - offsetBeforeAlignment
    (some (headerPtr + allocationMetaSize),
     { st with currentFrontPtr := headerPtr + (size + allocationMetaSize) },
     upd store headerPtr
       { allocation_offset := currentPtrOffset % u32Mod
         allocation_size := size % u32Mod })

/-- Embedding of `DoubleEndedStackAllocator::alloc_raw_back`.  The header's
`allocation_offset` is written from `current_end_ptr as isize - mem_end as
isize` — a non-positive quantity — truncated by an `as u32` cast, modelled by
the Int remainder mod 2^32.  The back cursor first steps down by `size`, is
aligned down, checked against the front cursor, then steps down by
`offset + ALLOCATION_META_SIZE`; the header is written there, the user pointer
is header + meta, and finally the cursor steps down by another
`ALLOCATION_META_SIZE`. -/
def alloc_raw_back (st : State) (store : HeaderStore) (size alignment offset : Nat) :
    Option Nat × State × HeaderStore :=
  let currentPtrOffset : Int := (st.currentEndPtr : Int) - (st.memEnd : Int)
  let offsetBeforeAlignment := offset + allocationMetaSize
  let down := align_bottom (st.currentEndPtr - size) alignment
  if down - offsetBeforeAlignment < st.currentFrontPtr then
    (none, { st with currentEndPtr := down }, store)
  else
    let headerPtr := down - offsetBeforeAlignment
    (some (headerPtr + allocationMetaSize),
     { st with currentEndPtr := headerPtr - allocationMetaSize },
     upd store headerPtr
       { allocation_offset := (currentPtrOffset % (u32Mod : Int)).toNat
         allocation_size := size % u32Mod })

/-- Embedding of `DoubleEndedStackAllocator::dealloc_raw_back`.  The two debug
assertions (pointer inside the allocator range, pointer in the back block) are
returned as the Bool.  The cursor is restored as `mem_end.offset(-(offset as
isize))` with the stored u32 zero-extended on a 64-bit host; at the inputs
considered in this development `mem_end` exceeds 2^32, so Nat subtraction does
not truncate. -/
def dealloc_raw_back (st : State) (store : HeaderStore) (ptr : Nat) :
    State × Bool :=
  let header := store (ptr - allocationMetaSize)
  let ptrInRange := decide (st.memBegin ≤ ptr) && decide (ptr < st.memEnd)
  let ptrInBackBlock := decide (st.currentEndPtr ≤ ptr)
  ({ st with currentEndPtr := st.memEnd - header.allocation_offset },
   ptrInRange && ptrInBackBlock)

end DoubleEndedStackAllocator

/-! ### Intrusive free list — src/mem/src/freelist.rs

The free list stores in the first pointer-sized bytes of each free block the
address of the next block; the store maps a block address to the pointer word
written there, with null represented by 0 and unwritten (freshly committed)
memory reading 0. -/

namespace FreeList

/-- Embedding of the threading loop in `FreeList::new_from`:

for _ in 0 .. number_of_blocks {
    *current = memory.offset(block_size);
    current = *current;
    memory = memory.offset(block_size);
}

with `current = begin` and `memory = begin + block_size` before the loop. -/
def threadLoop : Nat → (Nat → Nat) → Nat → Nat → Nat → (Nat → Nat) × Nat
  | 0, store, current, _, _ => (store, current)
  | n + 1, store, current, memory, blockSize =>
      threadLoop n (upd store current (memory + blockSize)) (memory + blockSize)
        (memory + blockSize) blockSize

/-- Embedding of `FreeList::new_from`: `number_of_blocks = (end - begin) /
block_size`, the loop threads the next pointers, the head is `begin`.
Returns (head, store). -/
def new_from (memBegin memEnd blockSize : Nat) (store : Nat → Nat) :
    Nat × (Nat → Nat) :=
  let numberOfBlocks := (memEnd - memBegin) / blockSize
  let r := threadLoop numberOfBlocks store memBegin (memBegin + blockSize) blockSize
  (memBegin, r.1)

/-- Embedding of `FreeList::get_block`: return the head; when it is non-null
advance the head to the stored next pointer.  Returns (block, new head). -/
def get_block (head : Nat) (store : Nat → Nat) : Nat × Nat :=
  if head ≠ 0 then (head, store head) else (head, head)

/-- Embedding of `FreeList::return_block`: write the current head into the
block and make the block the new head.  Returns (new head, store). -/
def return_block (head : Nat) (store : Nat → Nat) (block : Nat) :
    Nat × (Nat → Nat) :=
  (block, upd store block head)

/-- Pop `n` blocks in a row (the store is never written by `get_block`);
returns the popped blocks in order and the final head. -/
def popN : Nat → Nat → (Nat → Nat) → List Nat × Nat
  | 0, head, _ => ([], head)
  | n + 1, head, store =>
      let r := get_block head store
      let rest := popN n r.2 store
      (r.1 :: rest.1, rest.2)

end FreeList

/-! ### Pool allocator block-size computation —
src/mem/src/allocators/pool_allocator.rs -/

namespace PoolAllocator

/-- The pool allocator's `AllocationHeader` is a single u32. -/
def allocationMetaSize : Nat := 4

/-- Embedding of the pool allocator's local `round_to_next_multiple`:

let remainer = num % multiple;
num - remainer + multiple * !!(remainer)

In Rust `!` on an integer is bitwise negation, so `!!(remainer)` is the
identity (not a C-style booleanisation) and the source computes
`num - remainer + multiple * remainer`. -/
def round_to_next_multiple (num multiple : Nat) : Nat :=
  let remainer := num % multiple
  num - remainer + multiple * remainer

/-- Embedding of `calculate_minimal_block_size`. -/
def calculate_minimal_block_size (maxSize maxAlignment : Nat) : Nat :=
  if maxSize < maxAlignment then maxAlignment
  else round_to_next_multiple maxSize maxAlignment

/-- Block stride computed by `PoolAllocator::new`:
`calculate_minimal_block_size(max_element_size + ALLOCATION_META_SIZE,
max_element_alignment)`. -/
def blockMinSize (maxElementSize maxElementAlignment : Nat) : Nat :=
  calculate_minimal_block_size (maxElementSize + allocationMetaSize) maxElementAlignment

/-- Block stride according to the claim:
ceil((max_element_size + sizeof(header)) / max_element_alignment) ·
max_element_alignment, which equals max_element_alignment itself when the sum
is smaller. -/
def specBlockSize (maxElementSize maxElementAlignment : Nat) : Nat :=
  ((maxElementSize + allocationMetaSize + maxElementAlignment - 1) / maxElementAlignment)
    * maxElementAlignment

end PoolAllocator

/-! ### Canary bounds checker and basic realm —
src/mem/src/bounds_checker/simple_bounds_checker.rs and
src/mem/src/memory_realm/basic_realm.rs, instantiated with the linear
allocator (the instantiation used by the realm's own test). -/

namespace SimpleBoundsChecker

/-- The canary constant 0xCA. -/
def canary : Nat := 202

/-- The canary is written as a u32, so `get_canary_size` is 4. -/
def canarySize : Nat := 4

/-- Embedding of `validate_front_canary` / `validate_back_canary`: a null
pointer is not checked, otherwise the u32 at the pointer must equal the
canary (the result feeds a debug assertion in the source). -/
def validate (store : LinearAllocator.WordStore) (ptr : Nat) : Bool :=
  ptr == 0 || store ptr == canary

end SimpleBoundsChecker

namespace BasicMemoryRealm

/-- Embedding of `BasicMemoryRealm::alloc` over the linear allocator with the
canary bounds checker: request `size + 2·canary_size` bytes with
`user_offset = canary_size`, write the front canary at the allocator's user
pointer and the back canary at `user + size + canary_size`, hand back the user
pointer shifted up by `canary_size`. -/
def alloc (st : LinearAllocator.State) (store : LinearAllocator.WordStore)
    (size alignment : Nat) :
    Option Nat × LinearAllocator.State × LinearAllocator.WordStore :=
  let canarySize := SimpleBoundsChecker.canarySize
  let totalAllocationSize := size + canarySize * 2
  match LinearAllocator.alloc_raw st store totalAllocationSize alignment canarySize with
  | (none, st2, store2) => (none, st2, store2)
  | (some userPtr, st2, store2) =>
      let store3 := upd store2 userPtr SimpleBoundsChecker.canary
      let store4 := upd store3 (userPtr + (size + canarySize)) SimpleBoundsChecker.canary
      (some (userPtr + canarySize), st2, store4)

/-- Embedding of `BasicMemoryRealm::dealloc`: compute `allocated_ptr = user -
canary_size`, obtain the allocation size from the allocator — the source passes
the realm's (canary-shifted) block, so the u32 is read at `user -
ALLOCATION_META_SIZE` — then validate the front canary at `allocated_ptr` and
the back canary at `allocated_ptr + allocation_size + canary_size`.  The
linear allocator's `dealloc` is a no-op, so the result is the pair of
validation outcomes (each feeds a debug assertion). -/
def dealloc (store : LinearAllocator.WordStore) (ptr : Nat) : Bool × Bool :=
  let canarySize := SimpleBoundsChecker.canarySize
  let allocatedPtr := ptr - canarySize
  let allocationSize := LinearAllocator.get_allocation_size store ptr
  (SimpleBoundsChecker.validate store allocatedPtr,
   SimpleBoundsChecker.validate store (allocatedPtr + (allocationSize + canarySize)))

end BasicMemoryRealm

/-! ### HandleMap — src/container/src/handlemap.rs

Items are modelled as Nat values.  A handle is the pair (sparse_array_idx,
generation).  The map's free list is `spark_core::freelist::FreeList`, whose
source is not under src/; it is modelled from the spec below. -/

namespace HandleMap

/-- The `HandleData` record of the sparse array. -/
structure HandleData where
  dense_array_idx : Nat
  sparse_array_idx : Nat
  generation : Nat

/-- State of a handle map: the three parallel arrays (as functions), the free
list and the sizes. -/
structure Map where
  dense_array : Nat → Nat
  handle_array : Nat → HandleData
  meta_array : Nat → Nat
  freelist : List Nat
  size : Nat
  max_size : Nat

/-- Modelled from the spec: `spark_core::freelist::FreeList` is code of this
repository that is not under src/.  Per spec §4.2, `new_from(begin, end,
block_size)` produces a list of floor((end - begin) / block_size) blocks
threaded LIFO through the supplied range starting at `begin`, `pop` returns
the head block, and `push` makes the pushed block the new head.  The blocks
here are the sparse-array records, represented by their slot indices in
address order, head first. -/
def specFreeList (blockCount : Nat) : List Nat :=
  List.range blockCount

/-- Embedding of `HandleMap::new(max_size)`: every sparse slot gets
`sparse_array_idx = i` and `generation = 0` (`dense_array_idx` is left
uninitialised — the free-list threading actually overwrites its bytes — and is
modelled as 0), and all `max_size` slots are threaded into the free list. -/
def new (maxSize : Nat) : Map :=
  { dense_array := fun _ => 0
    handle_array := fun i => { dense_array_idx := 0, sparse_array_idx := i, generation := 0 }
    meta_array := fun _ => 0
    freelist := specFreeList maxSize
    size := 0
    max_size := maxSize }

/-- Embedding of `HandleMap::insert`: when the free list is non-empty pop a
slot, set its `dense_array_idx` to the current size, record the slot in
`meta_array[size]`, move the item into `dense_array[size]`, grow the size and
return the handle `(sparse_array_idx, generation)` of the slot.  The
`debug_assert!(size < max_size)` is a no-op on the state. -/
def insert (m : Map) (item : Nat) : Option (Nat × Nat) × Map :=
  match m.freelist with
  | [] => (none, m)
  | slot :: rest =>
      let handleData := m.handle_array slot
      (some (handleData.sparse_array_idx, handleData.generation),
       { m with
          handle_array := upd m.handle_array slot
            { handleData with dense_array_idx := m.size }
          meta_array := upd m.meta_array m.size handleData.sparse_array_idx
          dense_array := upd m.dense_array m.size item
          freelist := rest
          size := m.size + 1 })

/-- Swap of two positions of the dense array
(`self.dense_array.swap(dense_array_idx, last_item_idx)`). -/
def swapAt (f : Nat → Nat) (i j : Nat) : Nat → Nat :=
  fun k => if k = i then f j else if k = j then f i else f k

/-- Embedding of `HandleMap::remove`: reject a stale generation; otherwise
read the removed item, swap it with the last dense element, set the relocated
slot's `dense_array_idx` (the source never updates `meta_array` here), push
the freed slot onto the free list, bump its generation and shrink the size.
The `debug_assert!(sparse_array_idx < size)` is a no-op on the state. -/
def remove (m : Map) (h : Nat × Nat) : Option Nat × Map :=
  let handleData := m.handle_array h.1
  if h.2 ≠ handleData.generation then (none, m)
  else
    let lastItemIdx := m.size - 1
    let removedItem := m.dense_array handleData.dense_array_idx
    let dense2 := swapAt m.dense_array handleData.dense_array_idx lastItemIdx
    let movedItemIdx := m.meta_array lastItemIdx
    let handle2 := upd m.handle_array movedItemIdx
      { m.handle_array movedItemIdx with dense_array_idx := handleData.dense_array_idx }
    let handle3 := upd handle2 h.1
      { handle2 h.1 with generation := (handle2 h.1).generation + 1 }
    (some removedItem,
     { m with
        dense_array := dense2
        handle_array := handle3
        freelist := h.1 :: m.freelist
        size := lastItemIdx })

/-- Embedding of `HandleMap::is_valid`: the source first rejects
`sparse_array_idx >= self.size` (the live-element count, not `max_size`), then
requires the generation to match and `dense_array_idx < size`. -/
def is_valid (m : Map) (h : Nat × Nat) : Bool :=
  if m.size ≤ h.1 then false
  else
    ((m.handle_array h.1).generation == h.2) &&
      ((m.handle_array h.1).dense_array_idx < m.size)

/-- Validity predicate as the claim states it: `sparse_idx < max_size`, the
generations match and `dense_idx < size`. -/
def is_valid_spec (m : Map) (h : Nat × Nat) : Bool :=
  (h.1 < m.max_size) && ((m.handle_array h.1).generation == h.2) &&
    ((m.handle_array h.1).dense_array_idx < m.size)

end HandleMap

/-! ### Vector erase_range — src/container/src/vector.rs -/

namespace Vector

/-- A vector is its element store (the committed array, element-indexed) and
its size; only the first `size` entries are live. -/
structure Vec (α : Type) where
  internalArray : Nat → α
  size : Nat

/-- Embedding of `Vector::erase_range(begin, end)`.  The source returns
immediately when `begin == end`.  Otherwise (debug-asserting `begin ≤ end <
size`) it reads the elements of the range (destructor calls — no effect in a
value model), shrinks the size by `end - begin + 1` and `ptr::copy`s
`size.checked_sub(begin)` elements from index `end + 1` down to `begin`
(memmove semantics: the simultaneous function update below).  Entries at and
beyond the new size are untouched garbage. -/
def erase_range {α : Type} (v : Vec α) (b e : Nat) : Vec α :=
  if b = e then v
  else
    let erasingElementCount := (e - b) + 1
    let newSize := v.size - erasingElementCount
    let copyCount := newSize - b
    { internalArray := fun i =>
        if b ≤ i ∧ i < b + copyCount then v.internalArray (i + (e + 1 - b))
        else v.internalArray i
      size := newSize }

end Vector

/-! ### Concrete runs used by the counterexample and code-bug evaluations -/

/-- Fresh zeroed word store. -/
def zeroStore : LinearAllocator.WordStore := fun _ => 0

/-- Fresh double-ended header store (unwritten headers read as zero fields). -/
def zeroDEStore : DoubleEndedStackAllocator.HeaderStore := fun _ => ⟨0, 0⟩

/-- A 1 KiB double-ended stack allocator whose range starts at 2^40 (any
64-bit base above 2^32 exhibits the same behaviour). -/
def deDemoState : DoubleEndedStackAllocator.State :=
  { memBegin := 1099511627776
    memEnd := 1099511627776 + 1024
    currentFrontPtr := 1099511627776
    currentEndPtr := 1099511627776 + 1024 }

/-- First back allocation: alloc_raw_back(16, 1, 0). -/
def deStep1 : Option Nat × DoubleEndedStackAllocator.State × DoubleEndedStackAllocator.HeaderStore :=
  DoubleEndedStackAllocator.alloc_raw_back deDemoState zeroDEStore 16 1 0

/-- Second back allocation: alloc_raw_back(16, 1, 0). -/
def deStep2 : Option Nat × DoubleEndedStackAllocator.State × DoubleEndedStackAllocator.HeaderStore :=
  DoubleEndedStackAllocator.alloc_raw_back deStep1.2.1 deStep1.2.2 16 1 0

/-- Deallocation of the second back allocation. -/
def deStep3 : DoubleEndedStackAllocator.State × Bool :=
  DoubleEndedStackAllocator.dealloc_raw_back deStep2.2.1 deStep2.2.2 (deStep2.1.getD 0)

/-- Deallocation of the first back allocation directly after it (the
offset-zero case). -/
def deStep1Dealloc : DoubleEndedStackAllocator.State × Bool :=
  DoubleEndedStackAllocator.dealloc_raw_back deStep1.2.1 deStep1.2.2 (deStep1.1.getD 0)

/-- A 100-byte basic realm over the linear allocator at base 4096: the run of
`realm.alloc(4, 1)` on fresh memory. -/
def realmDemoAlloc : Option Nat × LinearAllocator.State × LinearAllocator.WordStore :=
  BasicMemoryRealm.alloc { memBegin := 4096, memEnd := 4196, currentPtr := 4096 }
    zeroStore 4 1

/-- HandleMap run for the is_valid claim: max_size 2; insert 10, insert 20,
then remove the first handle (0, 0). -/
def hmValidStep1 : Option (Nat × Nat) × HandleMap.Map :=
  HandleMap.insert (HandleMap.new 2) 10

def hmValidStep2 : Option (Nat × Nat) × HandleMap.Map :=
  HandleMap.insert hmValidStep1.2 20

def hmValidStep3 : Option Nat × HandleMap.Map :=
  HandleMap.remove hmValidStep2.2 (0, 0)

/-- HandleMap run for the bijection claim: max_size 3; insert 10, 20, 30,
remove the first handle (0, 0), then insert 40. -/
def hmBijStep1 : Option (Nat × Nat) × HandleMap.Map :=
  HandleMap.insert (HandleMap.new 3) 10

def hmBijStep2 : Option (Nat × Nat) × HandleMap.Map :=
  HandleMap.insert hmBijStep1.2 20

def hmBijStep3 : Option (Nat × Nat) × HandleMap.Map :=
  HandleMap.insert hmBijStep2.2 30

def hmBijStep4 : Option Nat × HandleMap.Map :=
  HandleMap.remove hmBijStep3.2 (0, 0)

def hmBijStep5 : Option (Nat × Nat) × HandleMap.Map :=
  HandleMap.insert hmBijStep4.2 40

/-- The free list threaded by `FreeList::new_from(1000, 1064, 16)` over fresh
zeroed memory: four declared blocks. -/
def flDemo : Nat × (Nat → Nat) :=
  FreeList.new_from 1000 1064 16 (fun _ => 0)

/-- A three-element vector holding 10, 20, 30. -/
def vecDemo : Vector.Vec Nat :=
  { internalArray := fun i => (i + 1) * 10, size := 3 }

/-! ## Lemmas -/

theorem upd_same {α : Type} (f : Nat → α) (i : Nat) (v : α) : upd f i v i = v := by
  simp [upd]

theorem upd_ne {α : Type} (f : Nat → α) {i j : Nat} (v : α) (h : j ≠ i) :
    upd f i v j = f j := by
  simp [upd, h]

theorem is_pot_pos {a : Nat} (h : is_pot a = true) : 0 < a := by
  cases a with
  | zero => simp [is_pot] at h
  | succ n => exact Nat.succ_pos n

theorem align_top_mod (addr : Nat) {a : Nat} (_ha : 0 < a) :
    align_top addr a % a = 0 := by
  unfold align_top
  have h := Nat.div_add_mod (addr + (a - 1)) a
  have h2 : (addr + (a - 1)) - ((addr + (a - 1)) % a) = a * ((addr + (a - 1)) / a) := by
    omega
  rw [h2]
  exact Nat.mul_mod_right a _

theorem le_align_top (addr : Nat) {a : Nat} (ha : 0 < a) : addr ≤ align_top addr a := by
  unfold align_top
  have h1 : (addr + (a - 1)) % a < a := Nat.mod_lt _ ha
  omega

namespace LinearAllocator

/-- Inversion of a successful `alloc_raw` call. -/
theorem alloc_raw_eq_some {st : State} {store : WordStore} {size alignment offset p : Nat}
    {st2 : State} {store2 : WordStore}
    (h : alloc_raw st store size alignment offset = (some p, st2, store2)) :
    align_top (st.currentPtr + (offset + allocationMetaSize)) alignment + size ≤ st.memEnd ∧
    p = (align_top (st.currentPtr + (offset + allocationMetaSize)) alignment
          - (offset + allocationMetaSize)) + allocationMetaSize ∧
    st2 = { st with currentPtr :=
            (align_top (st.currentPtr + (offset + allocationMetaSize)) alignment
              - (offset + allocationMetaSize)) + (size + allocationMetaSize) } ∧
    store2 = upd store
      (align_top (st.currentPtr + (offset + allocationMetaSize)) alignment
        - (offset + allocationMetaSize)) (size % u32Mod) := by
  unfold alloc_raw at h
  dsimp only at h
  split at h
  · exact absurd h (by simp)
  · next hcond =>
    simp only [Prod.mk.injEq, Option.some.injEq] at h
    obtain ⟨hp, hs, hm⟩ := h
    exact ⟨by omega, hp.symm, hs.symm, hm.symm⟩

/-- Inversion of a failed `alloc_raw` call: the cursor is left at the aligned
probe position. -/
theorem alloc_raw_eq_none {st : State} {store : WordStore} {size alignment offset : Nat}
    {st2 : State} {store2 : WordStore}
    (h : alloc_raw st store size alignment offset = (none, st2, store2)) :
    st.memEnd < align_top (st.currentPtr + (offset + allocationMetaSize)) alignment + size ∧
    st2 = { st with currentPtr :=
            align_top (st.currentPtr + (offset + allocationMetaSize)) alignment } ∧
    store2 = store := by
  unfold alloc_raw at h
  dsimp only at h
  split at h
  · next hcond =>
    simp only [Prod.mk.injEq] at h
    obtain ⟨_, hs, hm⟩ := h
    exact ⟨hcond, hs.symm, hm.symm⟩
  · exact absurd h (by simp)

end LinearAllocator

namespace StackAllocator

/-- Inversion of a successful `alloc` call. -/
theorem alloc_eq_some {lifoCheck : Bool} {st : State} {store : HeaderStore}
    {size alignment offset p : Nat} {st2 : State} {store2 : HeaderStore}
    (h : alloc lifoCheck st store size alignment offset = (some p, st2, store2)) :
    align_top (st.currentPtr + (offset + metaSize lifoCheck)) alignment + size ≤ st.memEnd ∧
    p = (align_top (st.currentPtr + (offset + metaSize lifoCheck)) alignment
          - (offset + metaSize lifoCheck)) + metaSize lifoCheck ∧
    st2 = { st with
            currentPtr :=
              (align_top (st.currentPtr + (offset + metaSize lifoCheck)) alignment
                - (offset + metaSize lifoCheck)) + (size + metaSize lifoCheck)
            allocationId :=
              if lifoCheck then (st.allocationId + 1) % u32Mod else st.allocationId } ∧
    store2 = upd store
      (align_top (st.currentPtr + (offset + metaSize lifoCheck)) alignment
        - (offset + metaSize lifoCheck))
      { allocation_offset := (st.currentPtr - st.memBegin) % u32Mod
        allocation_size := size % u32Mod
        allocation_id :=
          if lifoCheck then (st.allocationId + 1) % u32Mod else 0 } := by
  unfold alloc at h
  dsimp only at h
  split at h
  · exact absurd h (by simp)
  · next hcond =>
    simp only [Prod.mk.injEq, Option.some.injEq] at h
    obtain ⟨hp, hs, hm⟩ := h
    exact ⟨by omega, hp.symm, hs.symm, hm.symm⟩

/-- Inversion of a failed `alloc` call: the cursor is left at the aligned
probe, everything else is untouched. -/
theorem alloc_eq_none {lifoCheck : Bool} {st : State} {store : HeaderStore}
    {size alignment offset : Nat} {st2 : State} {store2 : HeaderStore}
    (h : alloc lifoCheck st store size alignment offset = (none, st2, store2)) :
    st.memEnd < align_top (st.currentPtr + (offset + metaSize lifoCheck)) alignment + size ∧
    st2 = { st with currentPtr :=
            align_top (st.currentPtr + (offset + metaSize lifoCheck)) alignment } ∧
    store2 = store := by
  unfold alloc at h
  dsimp only at h
  split at h
  · next hcond =>
    simp only [Prod.mk.injEq] at h
    obtain ⟨_, hs, hm⟩ := h
    exact ⟨hcond, hs.symm, hm.symm⟩
  · exact absurd h (by simp)

theorem metaSize_pos (lifoCheck : Bool) : 0 < metaSize lifoCheck := by
  cases lifoCheck <;> simp [metaSize]

end StackAllocator

namespace DoubleEndedStackAllocator

/-- Inversion of a successful front `alloc_raw` call. -/
theorem alloc_raw_front_eq_some {st : State} {store : HeaderStore}
    {size alignment offset p : Nat} {st2 : State} {store2 : HeaderStore}
    (h : alloc_raw st store size alignment offset = (some p, st2, store2)) :
    align_top (st.currentFrontPtr + (offset + allocationMetaSize)) alignment +
      (size - offset) ≤ st.currentEndPtr ∧
    p = (align_top (st.currentFrontPtr + (offset + allocationMetaSize)) alignment
          - (offset + allocationMetaSize)) + allocationMetaSize := by
  unfold alloc_raw at h
  dsimp only at h
  split at h
  · exact absurd h (by simp)
  · next hcond =>
    simp only [Prod.mk.injEq, Option.some.injEq] at h
    exact ⟨by omega, h.1.symm⟩

end DoubleEndedStackAllocator

/-! ## Claim theorems -/

/-- C1: for every call `alloc_raw(s, a, o)` on an allocator (linear, stack,
double-ended front) with `a` a power of two and `s > 0` that returns a user
pointer `p`, `(p + o) mod a = 0` and the byte range `[p, p + s)` lies within
the allocator's memory range `[base, end)`.  The hypotheses `base ≤ cursor`
(and, for the double-ended allocator, `back cursor ≤ end`) are the evident
state invariants established at construction. -/
theorem c1_alloc_raw_alignment_and_range :
    (∀ (st : LinearAllocator.State) (store : LinearAllocator.WordStore)
        (s a o p : Nat) (st2 : LinearAllocator.State) (store2 : LinearAllocator.WordStore),
        is_pot a = true → 0 < s → st.memBegin ≤ st.currentPtr →
        LinearAllocator.alloc_raw st store s a o = (some p, st2, store2) →
        (p + o) % a = 0 ∧ st.memBegin ≤ p ∧ p + s ≤ st.memEnd) ∧
    (∀ (lifoCheck : Bool) (st : StackAllocator.State) (store : StackAllocator.HeaderStore)
        (s a o p : Nat) (st2 : StackAllocator.State) (store2 : StackAllocator.HeaderStore),
        is_pot a = true → 0 < s → st.memBegin ≤ st.currentPtr →
        StackAllocator.alloc lifoCheck st store s a o = (some p, st2, store2) →
        (p + o) % a = 0 ∧ st.memBegin ≤ p ∧ p + s ≤ st.memEnd) ∧
    (∀ (st : DoubleEndedStackAllocator.State) (store : DoubleEndedStackAllocator.HeaderStore)
        (s a o p : Nat) (st2 : DoubleEndedStackAllocator.State)
        (store2 : DoubleEndedStackAllocator.HeaderStore),
        is_pot a = true → 0 < s → st.memBegin ≤ st.currentFrontPtr →
        st.currentEndPtr ≤ st.memEnd →
        DoubleEndedStackAllocator.alloc_raw st store s a o = (some p, st2, store2) →
        (p + o) % a = 0 ∧ st.memBegin ≤ p ∧ p + s ≤ st.memEnd) := by
  refine ⟨?_, ?_, ?_⟩
  · intro st store s a o p st2 store2 hpot hs hbase h
    obtain ⟨hfit, hp, -, -⟩ := LinearAllocator.alloc_raw_eq_some h
    have ha := is_pot_pos hpot
    have hle := le_align_top (st.currentPtr + (o + LinearAllocator.allocationMetaSize)) ha
    have hmod := align_top_mod (st.currentPtr + (o + LinearAllocator.allocationMetaSize)) ha
    have hmeta : LinearAllocator.allocationMetaSize = 4 := rfl
    refine ⟨?_, by omega, by omega⟩
    have hpo : p + o = align_top (st.currentPtr + (o + LinearAllocator.allocationMetaSize)) a := by
      omega
    rw [hpo]; exact hmod
  · intro lifoCheck st store s a o p st2 store2 hpot hs hbase h
    obtain ⟨hfit, hp, -, -⟩ := StackAllocator.alloc_eq_some h
    have ha := is_pot_pos hpot
    have hle := le_align_top (st.currentPtr + (o + StackAllocator.metaSize lifoCheck)) ha
    have hmod := align_top_mod (st.currentPtr + (o + StackAllocator.metaSize lifoCheck)) ha
    have hmeta := StackAllocator.metaSize_pos lifoCheck
    refine ⟨?_, by omega, by omega⟩
    have hpo : p + o = align_top (st.currentPtr + (o + StackAllocator.metaSize lifoCheck)) a := by
      omega
    rw [hpo]; exact hmod
  · intro st store s a o p st2 store2 hpot hs hbase hback h
    obtain ⟨hfit, hp⟩ := DoubleEndedStackAllocator.alloc_raw_front_eq_some h
    have ha := is_pot_pos hpot
    have hle := le_align_top (st.currentFrontPtr + (o + DoubleEndedStackAllocator.allocationMetaSize)) ha
    have hmod := align_top_mod (st.currentFrontPtr + (o + DoubleEndedStackAllocator.allocationMetaSize)) ha
    have hmeta : DoubleEndedStackAllocator.allocationMetaSize = 8 := rfl
    refine ⟨?_, by omega, by omega⟩
    have hpo : p + o =
        align_top (st.currentFrontPtr + (o + DoubleEndedStackAllocator.allocationMetaSize)) a := by
      omega
    rw [hpo]; exact hmod

/-- Witness for C1: the three allocators run at base 1000, end 2000 with the
call `alloc_raw(16, 8, 4)` (the stack allocator in its LIFO-check build). -/
theorem c1_alloc_raw_alignment_and_range_witness :
    (((1004 : Nat) + 4) % 8 = 0 ∧ (1000 : Nat) ≤ 1004 ∧ (1004 : Nat) + 16 ≤ 2000) ∧
    (((1012 : Nat) + 4) % 8 = 0 ∧ (1000 : Nat) ≤ 1012 ∧ (1012 : Nat) + 16 ≤ 2000) ∧
    (((1012 : Nat) + 4) % 8 = 0 ∧ (1000 : Nat) ≤ 1012 ∧ (1012 : Nat) + 16 ≤ 2000) :=
  ⟨c1_alloc_raw_alignment_and_range.1 ⟨1000, 2000, 1000⟩ zeroStore 16 8 4 1004
      ⟨1000, 2000, 1020⟩ (upd zeroStore 1000 (16 % u32Mod))
      (by decide) (by decide) (by decide) rfl,
   c1_alloc_raw_alignment_and_range.2.1 true ⟨1000, 2000, 1000, 0⟩ (fun _ => ⟨0, 0, 0⟩)
      16 8 4 1012 ⟨1000, 2000, 1028, 1 % u32Mod⟩
      (upd (fun _ => ⟨0, 0, 0⟩) 1000 ⟨0 % u32Mod, 16 % u32Mod, 1 % u32Mod⟩)
      (by decide) (by decide) (by decide) rfl,
   c1_alloc_raw_alignment_and_range.2.2 ⟨1000, 2000, 1000, 2000⟩ zeroDEStore
      16 8 4 1012 ⟨1000, 2000, 1028, 2000⟩
      (upd zeroDEStore 1004 ⟨0 % u32Mod, 16 % u32Mod⟩)
      (by decide) (by decide) (by decide) (by decide) rfl⟩

/-- Decrementing the u32 counter undoes incrementing it. -/
theorem u32_incr_decr {x : Nat} (hx : x < u32Mod) :
    ((x + 1) % u32Mod + (u32Mod - 1)) % u32Mod = x := by
  unfold u32Mod at *
  omega

/-- C8: on the stack allocator, for any successful sequence
`alloc(a); alloc(b); dealloc(b); dealloc(a)`, the post-state — cursor, and the
allocation counter when the LIFO check is compiled in — equals the state
before `alloc(a)`; both LIFO debug assertions hold along the way.  The
hypotheses are the construction-time state invariants (`base ≤ cursor ≤ end`,
a range below 2^32 bytes so the u32 header offsets are exact, and a u32
counter value). -/
theorem c8_stack_lifo_round_trip
    (lifoCheck : Bool) (s0 : StackAllocator.State) (m0 : StackAllocator.HeaderStore)
    (sa aa oa sb ab ob pa pb : Nat)
    (s1 s2 : StackAllocator.State) (m1 m2 : StackAllocator.HeaderStore)
    (hbase : s0.memBegin ≤ s0.currentPtr)
    (hcur : s0.currentPtr ≤ s0.memEnd)
    (hrange : s0.memEnd < s0.memBegin + u32Mod)
    (hid : s0.allocationId < u32Mod)
    (hpa : is_pot aa = true) (hpb : is_pot ab = true)
    (h1 : StackAllocator.alloc lifoCheck s0 m0 sa aa oa = (some pa, s1, m1))
    (h2 : StackAllocator.alloc lifoCheck s1 m1 sb ab ob = (some pb, s2, m2)) :
    (StackAllocator.dealloc lifoCheck
        (StackAllocator.dealloc lifoCheck s2 m2 pb).1 m2 pa).1.currentPtr = s0.currentPtr ∧
    (StackAllocator.dealloc lifoCheck
        (StackAllocator.dealloc lifoCheck s2 m2 pb).1 m2 pa).1.allocationId = s0.allocationId ∧
    (StackAllocator.dealloc lifoCheck s2 m2 pb).2 = true ∧
    (StackAllocator.dealloc lifoCheck
        (StackAllocator.dealloc lifoCheck s2 m2 pb).1 m2 pa).2 = true := by
  have hmetapos := StackAllocator.metaSize_pos lifoCheck
  have haa := is_pot_pos hpa
  have hab := is_pot_pos hpb
  obtain ⟨hfitA, hpA, hs1, hm1⟩ := StackAllocator.alloc_eq_some h1
  have hleA := le_align_top (s0.currentPtr + (oa + StackAllocator.metaSize lifoCheck)) haa
  have hs1b : s1.memBegin = s0.memBegin := by rw [hs1]
  have hs1e : s1.memEnd = s0.memEnd := by rw [hs1]
  have hs1c : s1.currentPtr =
      (align_top (s0.currentPtr + (oa + StackAllocator.metaSize lifoCheck)) aa
        - (oa + StackAllocator.metaSize lifoCheck)) + (sa + StackAllocator.metaSize lifoCheck) := by
    rw [hs1]
  have hs1i : s1.allocationId =
      if lifoCheck then (s0.allocationId + 1) % u32Mod else s0.allocationId := by
    rw [hs1]
  obtain ⟨hfitB, hpB, hs2, hm2⟩ := StackAllocator.alloc_eq_some h2
  have hleB := le_align_top (s1.currentPtr + (ob + StackAllocator.metaSize lifoCheck)) hab
  subst hs2 hm2 hpA hpB hm1
  -- the two header addresses are distinct
  have hne : align_top (s0.currentPtr + (oa + StackAllocator.metaSize lifoCheck)) aa
        - (oa + StackAllocator.metaSize lifoCheck) ≠
      align_top (s1.currentPtr + (ob + StackAllocator.metaSize lifoCheck)) ab
        - (ob + StackAllocator.metaSize lifoCheck) := by
    omega
  simp only [StackAllocator.dealloc]
  rw [Nat.add_sub_cancel, Nat.add_sub_cancel, upd_same, upd_ne _ _ hne, upd_same]
  have hoffA : (s0.currentPtr - s0.memBegin) % u32Mod = s0.currentPtr - s0.memBegin :=
    Nat.mod_eq_of_lt (by omega)
  cases lifoCheck with
  | false =>
    simp only [Bool.not_false, Bool.true_or, if_false, Bool.false_eq_true]
    refine ⟨?_, ?_, trivial, trivial⟩
    · rw [hoffA]; omega
    · rw [hs1i]; rfl
  | true =>
    simp only [if_true, Bool.not_true, Bool.false_or]
    have hi1 : (s0.allocationId + 1) % u32Mod < u32Mod := by
      unfold u32Mod; omega
    have hd1 : ((s1.allocationId + 1) % u32Mod + (u32Mod - 1)) % u32Mod = s1.allocationId := by
      apply u32_incr_decr
      rw [hs1i]
      simp only [if_true]
      exact hi1
  
    refine ⟨?_, ?_, by simp, ?_⟩
    · rw [hoffA]; omega
    · rw [hd1, hs1i]
      simp only [if_true]
      exact u32_incr_decr hid
    · rw [hd1, hs1i]
      simp
  
/-- Witness for C8: a 1 MiB stack allocator (LIFO-check build) at base 4096
runs `alloc(256, 1, 0); alloc(256, 1, 0); dealloc; dealloc` and returns to
cursor 4096 and counter 0. -/
theorem c8_stack_lifo_round_trip_witness :
    (StackAllocator.dealloc true
        (StackAllocator.dealloc true
          ⟨4096, 4096 + 1048576, 4632, 2 % u32Mod⟩
          (upd (upd (fun _ => ⟨0, 0, 0⟩) 4096
            ⟨(4096 - 4096) % u32Mod, 256 % u32Mod, 1 % u32Mod⟩) 4364
            ⟨(4364 - 4096) % u32Mod, 256 % u32Mod, 2 % u32Mod⟩) 4376).1
        (upd (upd (fun _ => ⟨0, 0, 0⟩) 4096
          ⟨(4096 - 4096) % u32Mod, 256 % u32Mod, 1 % u32Mod⟩) 4364
          ⟨(4364 - 4096) % u32Mod, 256 % u32Mod, 2 % u32Mod⟩) 4108).1.currentPtr = 4096 ∧
    (StackAllocator.dealloc true
        (StackAllocator.dealloc true
          ⟨4096, 4096 + 1048576, 4632, 2 % u32Mod⟩
          (upd (upd (fun _ => ⟨0, 0, 0⟩) 4096
            ⟨(4096 - 4096) % u32Mod, 256 % u32Mod, 1 % u32Mod⟩) 4364
            ⟨(4364 - 4096) % u32Mod, 256 % u32Mod, 2 % u32Mod⟩) 4376).1
        (upd (upd (fun _ => ⟨0, 0, 0⟩) 4096
          ⟨(4096 - 4096) % u32Mod, 256 % u32Mod, 1 % u32Mod⟩) 4364
          ⟨(4364 - 4096) % u32Mod, 256 % u32Mod, 2 % u32Mod⟩) 4108).1.allocationId = 0 ∧
    (StackAllocator.dealloc true
        ⟨4096, 4096 + 1048576, 4632, 2 % u32Mod⟩
        (upd (upd (fun _ => ⟨0, 0, 0⟩) 4096
          ⟨(4096 - 4096) % u32Mod, 256 % u32Mod, 1 % u32Mod⟩) 4364
          ⟨(4364 - 4096) % u32Mod, 256 % u32Mod, 2 % u32Mod⟩) 4376).2 = true ∧
    (StackAllocator.dealloc true
        (StackAllocator.dealloc true
          ⟨4096, 4096 + 1048576, 4632, 2 % u32Mod⟩
          (upd (upd (fun _ => ⟨0, 0, 0⟩) 4096
            ⟨(4096 - 4096) % u32Mod, 256 % u32Mod, 1 % u32Mod⟩) 4364
            ⟨(4364 - 4096) % u32Mod, 256 % u32Mod, 2 % u32Mod⟩) 4376).1
        (upd (upd (fun _ => ⟨0, 0, 0⟩) 4096
          ⟨(4096 - 4096) % u32Mod, 256 % u32Mod, 1 % u32Mod⟩) 4364
          ⟨(4364 - 4096) % u32Mod, 256 % u32Mod, 2 % u32Mod⟩) 4108).2 = true :=
  c8_stack_lifo_round_trip true ⟨4096, 4096 + 1048576, 4096, 0⟩ (fun _ => ⟨0, 0, 0⟩)
    256 1 0 256 1 0 4108 4376
    ⟨4096, 4096 + 1048576, 4364, 1 % u32Mod⟩
    ⟨4096, 4096 + 1048576, 4632, 2 % u32Mod⟩
    (upd (fun _ => ⟨0, 0, 0⟩) 4096 ⟨(4096 - 4096) % u32Mod, 256 % u32Mod, 1 % u32Mod⟩)
    (upd (upd (fun _ => ⟨0, 0, 0⟩) 4096 ⟨(4096 - 4096) % u32Mod, 256 % u32Mod, 1 % u32Mod⟩) 4364
      ⟨(4364 - 4096) % u32Mod, 256 % u32Mod, 2 % u32Mod⟩)
    (by decide) (by decide) (by decide) (by decide) (by decide) (by decide) rfl rfl

/-- C10: when `alloc_raw(s, a, o)` on the linear or stack allocator returns
`None` because the request does not fit, the cursor has been advanced to the
aligned probe position — forward by `o` plus the header size and then aligned
up — and is not rolled back to the pre-call state. -/
theorem c10_failed_alloc_advances_cursor :
    (∀ (st : LinearAllocator.State) (store : LinearAllocator.WordStore)
        (s a o : Nat) (st2 : LinearAllocator.State) (store2 : LinearAllocator.WordStore),
        is_pot a = true →
        LinearAllocator.alloc_raw st store s a o = (none, st2, store2) →
        st2.currentPtr = align_top (st.currentPtr + (o + LinearAllocator.allocationMetaSize)) a ∧
        st.currentPtr + (o + LinearAllocator.allocationMetaSize) ≤ st2.currentPtr) ∧
    (∀ (lifoCheck : Bool) (st : StackAllocator.State) (store : StackAllocator.HeaderStore)
        (s a o : Nat) (st2 : StackAllocator.State) (store2 : StackAllocator.HeaderStore),
        is_pot a = true →
        StackAllocator.alloc lifoCheck st store s a o = (none, st2, store2) →
        st2.currentPtr = align_top (st.currentPtr + (o + StackAllocator.metaSize lifoCheck)) a ∧
        st.currentPtr + (o + StackAllocator.metaSize lifoCheck) ≤ st2.currentPtr) := by
  constructor
  · intro st store s a o st2 store2 hpot h
    obtain ⟨hover, hst2, -⟩ := LinearAllocator.alloc_raw_eq_none h
    have ha := is_pot_pos hpot
    have hle := le_align_top (st.currentPtr + (o + LinearAllocator.allocationMetaSize)) ha
    subst hst2
    exact ⟨rfl, hle⟩
  · intro lifoCheck st store s a o st2 store2 hpot h
    obtain ⟨hover, hst2, -⟩ := StackAllocator.alloc_eq_none h
    have ha := is_pot_pos hpot
    have hle := le_align_top (st.currentPtr + (o + StackAllocator.metaSize lifoCheck)) ha
    subst hst2
    exact ⟨rfl, hle⟩

/-- Witness for C10: a 10-byte linear allocator and a 10-byte stack allocator
(non-LIFO build) each fail `alloc_raw(100, 1, 0)` and leave the cursor at the
probe 1004 resp. 1008. -/
theorem c10_failed_alloc_advances_cursor_witness :
    ((1004 : Nat) = align_top (1000 + (0 + LinearAllocator.allocationMetaSize)) 1 ∧
      (1000 : Nat) + (0 + LinearAllocator.allocationMetaSize) ≤ 1004) ∧
    ((1008 : Nat) = align_top (1000 + (0 + StackAllocator.metaSize false)) 1 ∧
      (1000 : Nat) + (0 + StackAllocator.metaSize false) ≤ 1008) :=
  ⟨c10_failed_alloc_advances_cursor.1 ⟨1000, 1010, 1000⟩ zeroStore 100 1 0
      ⟨1000, 1010, 1004⟩ zeroStore (by decide) rfl,
   c10_failed_alloc_advances_cursor.2 false ⟨1000, 1010, 1000, 0⟩ (fun _ => ⟨0, 0, 0⟩)
      100 1 0 ⟨1000, 1010, 1008, 0⟩ (fun _ => ⟨0, 0, 0⟩) (by decide) rfl⟩

/-- C2: a basic realm (linear allocator + canary checker) at base 4096 serves
`alloc(4, 1)`, returning user pointer 4104; nothing is overwritten.  The claim
says `dealloc` then validates the back canary exactly where `alloc` wrote it
and passes.  In the source, however, `dealloc` hands the canary-shifted block
to `get_allocation_size`, so the u32 it reads at `4104 - 4 = 4100` is the
front canary itself (0xCA = 202), not a size; the back canary is therefore
validated at `4100 + 202 + 4 = 4306` instead of `4100 + 4 + 4 = 4108`.  The
genuine back canary at 4108 is intact, yet validation returns
(front ok, back FAILED) — the debug abort fires on an uncorrupted block, and a
stomp on the real back sentinel at 4108 would go undetected. -/
theorem c2_basic_realm_dealloc_misreads_allocation_size :
    realmDemoAlloc.1 = some 4104 ∧
    LinearAllocator.get_allocation_size realmDemoAlloc.2.2 4104 = SimpleBoundsChecker.canary ∧
    realmDemoAlloc.2.2 (4100 + (4 + SimpleBoundsChecker.canarySize)) = SimpleBoundsChecker.canary ∧
    BasicMemoryRealm.dealloc realmDemoAlloc.2.2 4104 = (true, false) := by
  decide

/-- C3: the claim says `remove` updates both `sparse[dense_to_sparse[size-1]].
dense_idx` and `dense_to_sparse[S.dense_idx]`.  The source performs only the
first fix-up.  Run: max_size 3; insert 10, 20, 30 (handles (0,0), (1,0),
(2,0)); remove (0,0) — `dense_to_sparse[0]` stays 0 instead of becoming 2 —
then insert 40, which reuses slot 0 for dense index 2.  Afterwards size = 3
but `sparse[dense_to_sparse[0]].dense_idx = 2 ≠ 0`: the bijection is broken. -/
theorem c3_remove_misses_meta_array_fixup :
    hmBijStep1.1 = some (0, 0) ∧ hmBijStep2.1 = some (1, 0) ∧ hmBijStep3.1 = some (2, 0) ∧
    hmBijStep4.1 = some 10 ∧ hmBijStep5.1 = some (0, 1) ∧
    hmBijStep4.2.meta_array 0 = 0 ∧
    hmBijStep5.2.size = 3 ∧
    (hmBijStep5.2.handle_array (hmBijStep5.2.meta_array 0)).dense_array_idx = 2 ∧
    ¬ ((hmBijStep5.2.handle_array (hmBijStep5.2.meta_array 0)).dense_array_idx = 0) := by
  decide

/-- C4: `FreeList::new_from(1000, 1064, 16)` declares floor(64/16) = 4 blocks,
so the claim promises pops 1000, 1016, 1032, 1048 — all inside [1000, 1064) —
followed by null.  The threading loop instead skips 1016, threads 1000 → 1032
→ 1048 → 1064 → 1080 (writing a next pointer at 1064, the end of the declared
range), so the fourth popped block is 1064 ∉ [1000, 1064), and the fifth pop
still returns the non-null 1080 (the chain only ends where fresh memory reads
zero). -/
theorem c4_freelist_threading_escapes_range :
    (FreeList.popN 5 flDemo.1 flDemo.2).1 = [1000, 1032, 1048, 1064, 1080] ∧
    (1064 - 1000) / 16 = 4 ∧
    ¬ ((1000 : Nat) ≤ 1064 ∧ 1064 < 1064) ∧
    (1080 : Nat) ≠ 0 := by
  decide

/-- C5: the claim states block_size = ceil((max_element_size + 4) /
max_element_alignment) · max_element_alignment.  In the source
`round_to_next_multiple` computes `num - r + multiple * !!(r)` where `!!` is
double bitwise negation — the identity on usize — so for max_element_size 2
and alignment 4 (sum 6, remainder 2) it yields 6 - 2 + 4·2 = 12 where the
formula demands 8. -/
theorem c5_pool_block_size_formula_mismatch :
    PoolAllocator.blockMinSize 2 4 = 12 ∧
    PoolAllocator.specBlockSize 2 4 = 8 ∧
    PoolAllocator.blockMinSize 2 4 ≠ PoolAllocator.specBlockSize 2 4 := by
  decide

/-- C6: the claim says `is_valid(h)` is true iff `sparse_idx < max_size`, the
generations match, and `dense_idx < size` — so a handle from `insert`, not yet
removed, stays valid however its sparse index compares with the live count.
The source instead rejects `sparse_idx >= size`.  Run: max_size 2; insert 10
(handle (0,0)), insert 20 (handle (1,0)), remove (0,0).  Handle (1,0) is live
(its slot's generation matches and its dense index 0 < size 1), the claim's
predicate accepts it, but `is_valid` returns false because its sparse index 1
is not below size 1. -/
theorem c6_is_valid_compares_against_size :
    hmValidStep1.1 = some (0, 0) ∧ hmValidStep2.1 = some (1, 0) ∧
    hmValidStep3.1 = some 10 ∧
    HandleMap.is_valid hmValidStep3.2 (1, 0) = false ∧
    HandleMap.is_valid_spec hmValidStep3.2 (1, 0) = true := by
  decide

/-- C7: two back allocations of 16 bytes (alignment 1, offset 0) on a 1 KiB
double-ended allocator ending at 2^40 + 1024.  The first round-trips (its
stored offset is 0).  The second writes `(back - end) as u32 = 2^32 - 32` into
its header instead of the distance 32, so `dealloc_raw_back` — whose debug
assertions all pass — rewinds the cursor to `end - (2^32 - 32)` rather than to
its pre-allocation value `end - 32`. -/
theorem c7_dealloc_raw_back_fails_to_restore_cursor :
    deStep1.1.isSome = true ∧ deStep2.1.isSome = true ∧
    deStep1Dealloc.1.currentEndPtr = deDemoState.memEnd ∧
    (deStep2.2.2 (deDemoState.memEnd - 56)).allocation_offset = u32Mod - 32 ∧
    deStep3.2 = true ∧
    deStep1.2.1.currentEndPtr = deDemoState.memEnd - 32 ∧
    deStep3.1.currentEndPtr ≠ deDemoState.memEnd - 32 := by
  decide

/-- C9 (amended): for `begin < end < size`, `erase_range(begin, end)` erases
the inclusive range: the size drops by `end - begin + 1` and the surviving
prefix of the array is the original sequence with positions begin..end
removed, order preserved; for `begin = end` the source returns immediately and
the vector is unchanged. -/
theorem c9_erase_range_inclusive_amended {α : Type} (v : Vector.Vec α) (b e : Nat)
    (_hbe : b ≤ e) (hes : e < v.size) :
    (b = e → Vector.erase_range v b e = v) ∧
    (b < e →
      (Vector.erase_range v b e).size = v.size - ((e - b) + 1) ∧
      ∀ i, i < (Vector.erase_range v b e).size →
        (Vector.erase_range v b e).internalArray i =
          (if i < b then v.internalArray i
           else v.internalArray (i + ((e - b) + 1)))) := by
  constructor
  · intro hb
    unfold Vector.erase_range
    rw [if_pos hb]
  · intro hlt
    have hne : b ≠ e := Nat.ne_of_lt hlt
    unfold Vector.erase_range
    rw [if_neg hne]
    dsimp only
    refine ⟨rfl, ?_⟩
    intro i hi
    split
    · next hcopy =>
      rw [if_neg (by omega)]
      have harg : i + (e + 1 - b) = i + ((e - b) + 1) := by omega
      rw [harg]
    · next hcopy =>
      rw [if_pos (by omega)]

/-- C9 counterexample: `erase_range(1, 1)` on the vector [10, 20, 30]
satisfies the claim's precondition `1 ≤ 1 < 3`, yet the source's early return
leaves the vector untouched — the size stays 3 instead of dropping by
`end - begin + 1 = 1`. -/
theorem c9_erase_range_single_element_is_noop :
    (Vector.erase_range vecDemo 1 1).size = 3 ∧
    ¬ ((Vector.erase_range vecDemo 1 1).size = vecDemo.size - ((1 - 1) + 1)) := by
  decide

/-- Witness for C9's amended theorem: [10, 20, 30].erase_range(0, 1) leaves
the one-element sequence [30]. -/
theorem c9_erase_range_inclusive_amended_witness :
    (0 : Nat) ≤ 1 ∧ 1 < vecDemo.size ∧
    (((0 : Nat) = 1 → Vector.erase_range vecDemo 0 1 = vecDemo) ∧
      ((0 : Nat) < 1 →
        (Vector.erase_range vecDemo 0 1).size = vecDemo.size - ((1 - 0) + 1) ∧
        ∀ i, i < (Vector.erase_range vecDemo 0 1).size →
          (Vector.erase_range vecDemo 0 1).internalArray i =
            (if i < 0 then vecDemo.internalArray i
             else vecDemo.internalArray (i + ((1 - 0) + 1))))) :=
  ⟨by decide, by decide,
   c9_erase_range_inclusive_amended vecDemo 0 1 (by decide) (by decide)⟩

end RustySpark
